import Mathlib

/-!
# Verification of the voice interaction pipeline (`unified_processor.py`)

This file gives a shallow embedding, in Lean 4, of the core of the
`voice_assistant_crm` voice pipeline: the token manager (`AccessToken`),
the speech-recognition client (`ASRProvider`), the audio validator and
normalizer, the synthesis client (`TTSProvider`), and the orchestrator
(`AliyunProcessor.process`), together with theorems settling the frozen
claims about them.

Network responses, the refreshed-token supply and the external `ffmpeg`
invocation are inputs of the embedded functions (oracles): each embedded
function is a pure function of the response sequence its Python
counterpart would observe.  Byte strings are `List Nat` (each entry one
byte), Python `None`-able values are `Option`, and Python truthiness of
an optional string (`if not text: ...`) is made explicit.
-/

set_option autoImplicit false

namespace VoiceCRM

/-- Python truthiness of an `Optional[str]`: `None` and `""` are falsy. -/
def truthyO : Option String → Bool
  | none => false
  | some s => s ≠ ""

/-- `sub` occurs as a contiguous sublist of `l`. -/
def listContains (sub : List Char) : List Char → Bool
  | [] => sub.isPrefixOf []
  | c :: tl => sub.isPrefixOf (c :: tl) || listContains sub tl

/-- Rendering of `result.get("status")` inside a Python f-string:
`None` prints as `"None"`, a number prints as its decimal digits. -/
def statusRepr : Option Nat → String
  | none => "None"
  | some n => toString n

/-! ## Speech recognition client: `ASRProvider.speech_to_text`

The recognition request loop (`unified_processor.py` lines 281-339)
observes, on each attempt, one of: an HTTP-200 response carrying a JSON
payload `{status, message?, result?}`, a non-200 HTTP response with a
body text, a timeout, or some other exception.  `ASREvent` is that
observation; the event list is consumed one entry per attempt. -/

inductive ASREvent where
  /-- HTTP 200 with JSON fields `status` (absent key modelled as `none`),
  `message` and `result`. -/
  | resp (status : Option Nat) (message : Option String) (result : Option String)
  /-- non-200 HTTP response: status code and body text. -/
  | httpErr (code : Nat) (body : String)
  /-- `asyncio.TimeoutError`. -/
  | timeout
  /-- any other exception, carrying `str(e)`. -/
  | exn (msg : String)
  deriving DecidableEq, Repr

/-- The error message built at lines 302-305 for a 200 response whose
provider status is not `20000000`. -/
def asrDomainError (status : Option Nat) (message : Option String) : String :=
  "ASR识别失败: " ++ message.getD "未知错误" ++ " (状态码: " ++ statusRepr status ++ ")"

/-- The `for attempt in range(3)` body of `speech_to_text`
(lines 282-337).  `refresh` is the supply of tokens returned by
`token_manager.get_token()` at the invalid-token branch (line 310), one
entry consumed per refresh.  Returns the `(text, error)` pair together
with the number of attempts performed (HTTP requests issued by the
loop).  An empty event list models the (dead) fall-through return at
line 339. -/
def sttLoop (refresh : List (Option String)) (events : List ASREvent)
    (attempt : Nat) : (Option String × Option String) × Nat :=
  match events with
  | [] => ((none, some "ASR请求失败，达到最大重试次数"), 0)
  | e :: rest =>
    match e with
    | .resp status message result =>
      if status = some 20000000 then
        -- line 293: provider success status
        if truthyO result then ((result, none), 1)
        else ((some "", some "ASR返回空结果"), 1)
      else
        -- lines 301-314: domain error; status 40000004 clears the cached
        -- token, refreshes, and (token truthy ∧ attempts remain) continues
        -- the same loop
        if status = some 40000004 ∧ truthyO (refresh.headD none) ∧ attempt < 2 then
          let r := sttLoop refresh.tail rest (attempt + 1)
          (r.1, r.2 + 1)
        else ((none, some (asrDomainError status message)), 1)
    | .httpErr code body =>
      -- lines 315-322: retry only on 408 / 5xx while attempts remain
      if (code = 408 ∨ 500 ≤ code) ∧ attempt < 2 then
        let r := sttLoop refresh rest (attempt + 1)
        (r.1, r.2 + 1)
      else ((none, some ("ASR请求失败: HTTP " ++ toString code ++ " - " ++ body)), 1)
    | .timeout =>
      -- lines 323-329
      if attempt < 2 then
        let r := sttLoop refresh rest (attempt + 1)
        (r.1, r.2 + 1)
      else ((none, some ("ASR请求超时 (尝试 " ++ toString (attempt + 1) ++ "/3)")), 1)
    | .exn m =>
      -- lines 330-337
      if attempt < 2 then
        let r := sttLoop refresh rest (attempt + 1)
        (r.1, r.2 + 1)
      else ((none, some ("ASR请求异常: " ++ m)), 1)

/-- `ASRProvider.speech_to_text` (lines 248-339): token check, then the
request loop.  `token` is what `token_manager.get_token()` returned at
line 249.  (The audio validation / conversion of lines 254-258 only
affects the request body, never the returned pair; it is modelled
separately as `validateAudioFormat` / `convertAudioSync` below.) -/
def speech_to_text (token : Option String) (refresh : List (Option String))
    (events : List ASREvent) : (Option String × Option String) × Nat :=
  if truthyO token then sttLoop refresh events 0
  else ((none, some "获取ASR Token失败"), 0)

/-! ## Audio validation and normalization

`_validate_audio_format` and `_simple_audio_conversion` read the byte
string through Python's `wave` module (`wave.open` on a `BytesIO`),
which in turn reads RIFF chunks through the `chunk` module.  The model
below follows those library paths as exercised here: the outer `RIFF`
chunk bounds every inner read; inner chunk headers are 4 name bytes plus
a little-endian 4-byte size; the `fmt ` chunk must be PCM (format tag 1)
with nonzero channels and nonzero byte width `(bits + 7) / 8`; a `data`
chunk must follow a `fmt ` chunk; chunks are skipped with word
alignment, and a skip whose extent exceeds the outer chunk's declared
size raises (every raised exception makes `_validate_audio_format`
return `False` and `_simple_audio_conversion` return the input).

The one library behaviour not reproduced is the pad byte the `chunk`
module consumes from the file when a read exhausts an odd-sized outer
chunk: after that point the outer chunk yields only empty reads either
way, so the parse outcome is unaffected. -/

/-- `BytesIO` read: up to `n` bytes starting at `pos` (shorter near the
end of the data). -/
def readBytes (data : List Nat) (pos n : Nat) : List Nat :=
  (data.drop pos).take n

/-- `struct.unpack('<H', ·)`: `none` models `struct.error` on a short
read. -/
def u16le : List Nat → Option Nat
  | [a, b] => some (a % 256 + 256 * (b % 256))
  | _ => none

/-- `struct.unpack('<L', ·)`: `none` models `struct.error` on a short
read. -/
def u32le : List Nat → Option Nat
  | [a, b, c, d] =>
    some (a % 256 + 256 * (b % 256) + 65536 * (c % 256) + 16777216 * (d % 256))
  | _ => none

/-- ASCII bytes of `b'RIFF'`. -/
def riffName : List Nat := [82, 73, 70, 70]

/-- ASCII bytes of `b'WAVE'`. -/
def waveName : List Nat := [87, 65, 86, 69]

/-- ASCII bytes of `b'fmt '`. -/
def fmtName : List Nat := [102, 109, 116, 32]

/-- ASCII bytes of `b'data'`. -/
def dataName : List Nat := [100, 97, 116, 97]

/-- A read through the outer `RIFF` chunk whose declared size is `oc`
and of which `sr` bytes have been consumed: capped by the declared
remainder and by the actual file bytes (the chunk contents start at
file offset 8). -/
def outerRead (data : List Nat) (oc sr n : Nat) : List Nat :=
  readBytes data (8 + sr) (min n (oc - sr))

/-- The header fields kept by `Wave_read` once parsing succeeds. -/
structure WavInfo where
  framerate : Nat
  nchannels : Nat
  sampwidth : Nat
  /-- file offset of the first byte of the `data` chunk contents. -/
  dataOfs : Nat
  /-- declared size of the `data` chunk. -/
  dataSize : Nat
  /-- declared bytes remaining in the outer chunk at the start of the
  `data` chunk contents. -/
  dataOuterRemaining : Nat
  deriving DecidableEq, Repr

/-- Sample-format fields of a parsed `fmt ` chunk. -/
structure FmtParams where
  framerate : Nat
  nchannels : Nat
  sampwidth : Nat
  deriving DecidableEq, Repr

/-- `Wave_read._read_fmt_chunk`: 14 bytes `<HHLLH` then the 2-byte
sample width, all read through the inner chunk bound `csize` and the
outer chunk; requires PCM format tag 1, nonzero byte width
`(bits + 7) / 8` and nonzero channel count.  `sr2` is the outer offset
of the chunk contents. -/
def readFmt (data : List Nat) (oc sr2 csize : Nat) : Option FmtParams :=
  let b14 := outerRead data oc sr2 (min 14 csize)
  if b14.length < 14 then none
  else
    let b2 := outerRead data oc (sr2 + 14) (min 2 (csize - 14))
    if b2.length < 2 then none
    else
      match u16le (b14.take 2), u16le ((b14.drop 2).take 2),
            u32le ((b14.drop 4).take 4), u16le b2 with
      | some tag, some nch, some fr, some bits =>
        if tag ≠ 1 then none
        else
          let sw := (bits + 7) / 8
          if sw = 0 then none
          else if nch = 0 then none
          else some ⟨fr, nch, sw⟩
      | _, _, _, _ => none

/-- The chunk loop of `Wave_read.initfp`: scan inner chunks starting at
outer offset `sr`, remembering the last `fmt ` parameters, until a
`data` chunk (success) or an end-of-file / error condition (failure).
`fuel` only bounds the recursion; each iteration consumes at least 8
declared bytes of the outer chunk, so `oc + 1` fuel is never
exhausted. -/
def scanChunks (data : List Nat) (oc : Nat) :
    Option FmtParams → Nat → Nat → Option WavInfo
  | _, _, 0 => none
  | fmt, sr, fuel + 1 =>
    let name := outerRead data oc sr 4
    if name.length < 4 then none
    else
      let szb := outerRead data oc (sr + 4) 4
      match u32le szb with
      | none => none
      | some csize =>
        let sr2 := sr + 8
        if name = fmtName then
          match readFmt data oc sr2 csize with
          | none => none
          | some p =>
            -- chunk.skip() after the 16 bytes read by _read_fmt_chunk:
            -- seek past the remainder (word aligned); seeking beyond the
            -- outer chunk's declared size raises
            let n := (csize - 16) + (if csize % 2 = 1 then 1 else 0)
            if oc < sr2 + 16 + n then none
            else scanChunks data oc (some p) (sr2 + 16 + n) fuel
        else if name = dataName then
          match fmt with
          | none => none       -- 'data chunk before fmt chunk'
          | some p =>
            some ⟨p.framerate, p.nchannels, p.sampwidth, 8 + sr2, csize, oc - sr2⟩
        else
          let n := csize + (if csize % 2 = 1 then 1 else 0)
          if oc < sr2 + n then none
          else scanChunks data oc fmt (sr2 + n) fuel

/-- `wave.open(io.BytesIO(data), 'rb')` as exercised by this program:
`none` models any exception raised while reading the header.  The outer
chunk must be named `RIFF` with form type `WAVE`; then the chunk scan
must find `fmt ` before `data`. -/
def parseWav (data : List Nat) : Option WavInfo :=
  if readBytes data 0 4 ≠ riffName then none
  else
    match u32le (readBytes data 4 4) with
    | none => none
    | some oc =>
      if outerRead data oc 0 4 ≠ waveName then none
      else scanChunks data oc none 4 (oc + 1)

/-- `ASRProvider._validate_audio_format` (lines 227-246): parse the
header (any exception gives `False`), then check the three fields in
the order of the source. -/
def validateAudioFormat (data : List Nat) : Bool :=
  match parseWav data with
  | none => false
  | some info =>
    if info.framerate ≠ 16000 then false
    else if info.nchannels ≠ 1 then false
    else if info.sampwidth ≠ 2 then false
    else true

/-- `wav.readframes(params.nframes)` in `_simple_audio_conversion`:
request `nframes * framesize` bytes of the `data` chunk, bounded by the
chunk's declared size, the outer chunk's declared remainder and the
actual file bytes. -/
def readFramesBytes (data : List Nat) (info : WavInfo) : List Nat :=
  let framesize := info.nchannels * info.sampwidth
  let nframes := info.dataSize / framesize
  readBytes data info.dataOfs (min (nframes * framesize) info.dataOuterRemaining)

/-- Little-endian bytes of a 16-bit field written by the `wave`
writer. -/
def u16bytes (n : Nat) : List Nat := [n % 256, n / 256 % 256]

/-- Little-endian bytes of a 32-bit field written by the `wave`
writer. -/
def u32bytes (n : Nat) : List Nat :=
  [n % 256, n / 256 % 256, n / 65536 % 256, n / 16777216 % 256]

/-- The 44-byte header the `wave` writer emits for 1 channel, 2-byte
samples, 16000 Hz and a `data` chunk of `dlen` bytes: `RIFF` size
`36 + dlen`, `WAVE`, a 16-byte PCM `fmt ` chunk (byte rate 32000, block
align 2, 16 bits), then the `data` chunk header. -/
def wavHeader44 (dlen : Nat) : List Nat :=
  riffName ++ u32bytes (36 + dlen) ++ waveName ++
  fmtName ++ u32bytes 16 ++ u16bytes 1 ++ u16bytes 1 ++
  u32bytes 16000 ++ u32bytes 32000 ++ u16bytes 2 ++ u16bytes 16 ++
  dataName ++ u32bytes dlen

/-- Output of the `wave` writer in `_simple_audio_conversion`
(lines 215-222): the canonical header followed by the frame bytes. -/
def wavWrite16k (frames : List Nat) : List Nat :=
  wavHeader44 frames.length ++ frames

/-- `ASRProvider._simple_audio_conversion` (lines 203-225): parse the
input (any exception returns the input unchanged); if the parameters
are already 16000 Hz / 1 channel / 2-byte samples return the input,
otherwise rewrite the frame bytes under the canonical header.  The
size guard models `struct.pack('<L', ·)` raising once `36` plus the
data length no longer fits in 32 bits, which the bare `except` turns
into returning the input. -/
def simpleAudioConversion (data : List Nat) : List Nat :=
  match parseWav data with
  | none => data
  | some info =>
    if info.framerate = 16000 ∧ info.nchannels = 1 ∧ info.sampwidth = 2 then data
    else
      let frames := readFramesBytes data info
      if 36 + frames.length < 4294967296 then wavWrite16k frames
      else data

/-- Outcome of the `ffmpeg` subprocess in `_convert_audio_sync`
(lines 155-201), an external tool modelled as an oracle. -/
inductive FfmpegOutcome where
  /-- return code 0: the converted file bytes are returned as-is. -/
  | success (out : List Nat)
  /-- nonzero return code (line 181): software fallback. -/
  | exitNonzero
  /-- `subprocess.TimeoutExpired` (line 196): the original bytes are
  returned unchanged. -/
  | timeout
  /-- `ffmpeg` missing (`FileNotFoundError`) or any other exception
  (line 199): software fallback. -/
  | unavailable
  deriving DecidableEq, Repr

/-- `ASRProvider._convert_audio_sync` (lines 155-201). -/
def convertAudioSync (ff : FfmpegOutcome) (data : List Nat) : List Nat :=
  match ff with
  | .success out => out
  | .exitNonzero => simpleAudioConversion data
  | .timeout => data
  | .unavailable => simpleAudioConversion data

/-! ## Speech synthesis client: `TTSProvider.text_to_speech`

The synthesis request loop (lines 570-607) observes, per attempt, one
of: an HTTP-200 response whose body is the audio payload, a non-200
response with body text, a timeout, or another exception. -/

inductive TTSEvent where
  /-- HTTP 200; the body bytes are returned as the audio. -/
  | ok (payload : List Nat)
  /-- non-200 HTTP response: status code and body text. -/
  | httpErr (code : Nat) (body : String)
  /-- `asyncio.TimeoutError`. -/
  | timeout
  /-- any other exception. -/
  | exn (msg : String)
  deriving DecidableEq, Repr

/-- Network activity performed by one `text_to_speech` call:
`tokenFetch` is the `get_tts_token()` invocation at line 554 (the only
site that can issue a token-refresh request), `synthRequest` is one POST
of the synthesis loop. -/
inductive TTSNet where
  | tokenFetch
  | synthRequest
  deriving DecidableEq, Repr

/-- The `for attempt in range(3)` body of `text_to_speech`
(lines 570-607).  Returns the audio bytes (`[]` is Python's `b""`) and
the list of requests issued.  On a non-200 response whose lowercased
body contains `"token"`, the cached token is cleared and the same loop
continues (lines 586-590); the retried POST reuses the already-built
payload.  An empty event list models the (dead) fall-through at
line 607. -/
def ttsLoop (events : List TTSEvent) (attempt : Nat) : List Nat × List TTSNet :=
  match events with
  | [] => ([], [])
  | e :: rest =>
    match e with
    | .ok payload => (payload, [.synthRequest])
    | .httpErr _code body =>
      if listContains "token".toList (body.toList.map Char.toLower) ∧ attempt < 2 then
        let r := ttsLoop rest (attempt + 1)
        (r.1, .synthRequest :: r.2)
      else ([], [.synthRequest])
    | .timeout =>
      if attempt < 2 then
        let r := ttsLoop rest (attempt + 1)
        (r.1, .synthRequest :: r.2)
      else ([], [.synthRequest])
    | .exn _m =>
      if attempt < 2 then
        let r := ttsLoop rest (attempt + 1)
        (r.1, .synthRequest :: r.2)
      else ([], [.synthRequest])

/-- Python `not text or len(text.strip()) == 0` (line 550): the text is
empty, or stripping whitespace from both ends leaves nothing — i.e.
every character is whitespace. -/
def pyBlank (text : String) : Bool :=
  text = "" ∨ text.toList.all Char.isWhitespace

/-- `TTSProvider.text_to_speech` (lines 549-607): blank-text
short-circuit, then token acquisition, then the request loop.  `token`
is what `get_tts_token()` returns when invoked.  The `session_id`
argument only enters the request payload, so it does not appear among
the inputs here; it is tracked by the orchestrator model below. -/
def text_to_speech (token : Option String) (text : String)
    (events : List TTSEvent) : List Nat × List TTSNet :=
  if pyBlank text then ([], [])
  else if truthyO token then
    let r := ttsLoop events 0
    (r.1, .tokenFetch :: r.2)
  else ([], [.tokenFetch])

/-! ## Pipeline orchestrator: `AliyunProcessor.process`

`process` (lines 680-759) sequences recognition, generation and
synthesis.  The model returns, besides the result dictionary, the list
of downstream provider calls performed (with the arguments relevant to
the claims) and the updated statistics counters. -/

/-- The `self.stats` dictionary of `AliyunProcessor.__init__`
(lines 662-670). -/
structure Stats where
  asr_success : Nat
  asr_failed : Nat
  llm_success : Nat
  llm_failed : Nat
  tts_success : Nat
  tts_failed : Nat
  total_processed : Nat
  deriving DecidableEq, Repr

/-- A well-formed chat message `{role, content}`. -/
structure Msg where
  role : String
  content : String
  deriving DecidableEq, Repr

/-- An entry of the caller-supplied `chat_history`: a dictionary whose
`role` / `content` keys may be absent (`msg.get` returns `None`). -/
structure HistEntry where
  role : Option String
  content : Option String
  deriving DecidableEq, Repr

/-- One downstream provider call made by `process`, with the arguments
it receives.  `speech_to_text(audio_data, session_id)` and
`text_to_speech(text, session_id)` receive the session id;
`generate_response(messages)` (line 719, signature at line 363) has no
session-id parameter at all. -/
inductive Call where
  | asrCall (sessionId : String)
  | llmCall (messages : List Msg)
  | ttsCall (text : String) (sessionId : String)
  deriving DecidableEq, Repr

/-- The session id an invocation's downstream call carries, if any. -/
def callSession : Call → Option String
  | .asrCall s => some s
  | .llmCall _ => none
  | .ttsCall _ s => some s

/-- The dictionary `process` returns: either `{"error": msg}` or the
four-field success dictionary of lines 749-754. -/
inductive ProcessResult where
  | error (msg : String)
  | ok (text : String) (response : String) (audio : List Nat) (sessionId : String)
  deriving DecidableEq, Repr

/-- Oracle inputs of one `process` invocation: the per-invocation UUID
hex digits and everything the three providers observe. -/
structure PipelineEnv where
  uuidHex : String
  asrToken : Option String
  asrRefresh : List (Option String)
  asrEvents : List ASREvent
  llmResult : String
  ttsToken : Option String
  ttsEvents : List TTSEvent
  deriving Repr

/-- `f"session_{uuid.uuid4().hex[:8]}"` (line 683): the prefix
`session_` followed by the first 8 characters of the fresh UUID's hex
digits. -/
def sessionIdOf (uuidHex : String) : String :=
  "session_" ++ ⟨uuidHex.toList.take 8⟩

/-- The fixed system prompt prepended to every generation call
(lines 699-707). -/
def systemPrompt : String :=
  "你是名为小云的智能语音助手，你的核心设定如下：\n" ++
  "1. 你的名字是小云，是一个友好的智能语音助手；\n" ++
  "2. 当用户向你打招呼（比如“你好”“哈喽”“我叫XX”）时，必须先回应“你好，我是小云，一个智能语音助手，请问有什么可以帮到您？”；\n" ++
  "3. 回答要简洁、友好，符合智能助手的身份。"

/-- The history filter of lines 710-713: keep entries whose `role` is
`user` or `assistant` and whose `content` is truthy. -/
def validHist (m : HistEntry) : Bool :=
  (m.role = some "user" ∨ m.role = some "assistant") ∧ truthyO m.content

/-- A kept history entry as a message (its fields are present and
nonempty by `validHist`). -/
def histToMsg (m : HistEntry) : Msg :=
  ⟨m.role.getD "", m.content.getD ""⟩

/-- The string sniffing of lines 723-729 that treats certain generation
response texts as failures: a failure prefix, or `失败` / `错误`
occurring among the first 100 characters (`llm_response[:100]`). -/
def llmFailCheck (s : String) : Bool :=
  "LLM请求失败".toList.isPrefixOf s.toList ∨
  "LLM请求异常".toList.isPrefixOf s.toList ∨
  "LLM请求超时".toList.isPrefixOf s.toList ∨
  listContains "失败".toList (s.toList.take 100) ∨
  listContains "错误".toList (s.toList.take 100)

/-- Line 688: `if error or not text` on the pair `speech_to_text`
returned. -/
def asrCallFailed (pair : Option String × Option String) : Bool :=
  truthyO pair.2 || !truthyO pair.1

/-- Lines 689: `f"ASR失败: {error}" if error else "ASR返回空结果"`. -/
def asrFailMsgOf (pair : Option String × Option String) : String :=
  if truthyO pair.2 then "ASR失败: " ++ pair.2.getD "" else "ASR返回空结果"

/-- Line 740: `if not tts_audio or len(tts_audio) < 100`. -/
def ttsShortB (l : List Nat) : Bool :=
  l.isEmpty || decide (l.length < 100)

/-- Lines 741: `len(tts_audio) if tts_audio else 0`. -/
def pyLenOrZero (l : List Nat) : Nat :=
  if l.isEmpty then 0 else l.length

/-- `AliyunProcessor.process` (lines 680-759).  The `try` wrapper of
line 682 only converts an exception into `{"error": ...}`; the modelled
body raises none. -/
def process (env : PipelineEnv) (chatHistory : List HistEntry) (stats : Stats) :
    ProcessResult × List Call × Stats :=
  let sid := sessionIdOf env.uuidHex
  let stats0 := { stats with total_processed := stats.total_processed + 1 }
  let asr := (speech_to_text env.asrToken env.asrRefresh env.asrEvents).1
  let calls0 := [Call.asrCall sid]
  if asrCallFailed asr then
    (ProcessResult.error (asrFailMsgOf asr),
      calls0, { stats0 with asr_failed := stats0.asr_failed + 1 })
  else
    let text := asr.1.getD ""
    let stats1 := { stats0 with asr_success := stats0.asr_success + 1 }
    let messages := Msg.mk "system" systemPrompt ::
      ((chatHistory.filter validHist).map histToMsg ++ [Msg.mk "user" text])
    let llmResp := env.llmResult
    let calls1 := calls0 ++ [Call.llmCall messages]
    if llmFailCheck llmResp then
      (ProcessResult.error ("LLM处理失败: " ++ llmResp.take 200 ++ "..."),
        calls1, { stats1 with llm_failed := stats1.llm_failed + 1 })
    else
      let stats2 := { stats1 with llm_success := stats1.llm_success + 1 }
      let tts := (text_to_speech env.ttsToken llmResp env.ttsEvents).1
      let calls2 := calls1 ++ [Call.ttsCall llmResp sid]
      if ttsShortB tts then
        (ProcessResult.error
            ("TTS合成失败，音频长度: " ++ toString (pyLenOrZero tts) ++ "字节"),
          calls2, { stats2 with tts_failed := stats2.tts_failed + 1 })
      else
        (ProcessResult.ok text llmResp tts sid, calls2,
          { stats2 with tts_success := stats2.tts_success + 1 })

/-- The `(text, error)` pair the recognition stage of `process`
observes. -/
def asrPair (env : PipelineEnv) : Option String × Option String :=
  (speech_to_text env.asrToken env.asrRefresh env.asrEvents).1

/-- The audio bytes the synthesis stage of `process` observes. -/
def ttsAudioOf (env : PipelineEnv) : List Nat :=
  (text_to_speech env.ttsToken env.llmResult env.ttsEvents).1

/-! ## Statistics snapshot: `AliyunProcessor.get_stats`

Python dictionaries are mutable objects reached through references; we
model a heap of `Stats` dictionaries so that `self.stats.copy()`
(line 796) is distinguishable from returning `self.stats` itself. -/

/-- A heap of `Stats` dictionaries: cell contents plus the next fresh
reference. -/
structure StatsHeap where
  cells : Nat → Stats
  next : Nat

/-- Allocate a fresh dictionary holding `d`. -/
def statsAlloc (h : StatsHeap) (d : Stats) : Nat × StatsHeap :=
  (h.next, ⟨Function.update h.cells h.next d, h.next + 1⟩)

/-- `AliyunProcessor.get_stats` (lines 795-796): `self.stats.copy()` —
a fresh dictionary with the current counter values, whose reference is
returned.  `statsRef` is the reference held in `self.stats`. -/
def get_stats (statsRef : Nat) (h : StatsHeap) : Nat × StatsHeap :=
  statsAlloc h (h.cells statsRef)

/-- An in-place mutation of the dictionary behind reference `r`. -/
def dictWrite (h : StatsHeap) (r : Nat) (f : Stats → Stats) : StatsHeap :=
  ⟨Function.update h.cells r (f (h.cells r)), h.next⟩

/-- A sequence of in-place mutations of the dictionary behind `r`. -/
def dictWrites (h : StatsHeap) (r : Nat) : List (Stats → Stats) → StatsHeap
  | [] => h
  | f :: fs => dictWrites (dictWrite h r f) r fs

/-! ## Token manager: `AccessToken.get_token`

`get_token` (lines 36-102) is a coroutine: read the clock, fast-path
return if the cached token is valid, otherwise acquire the
`asyncio.Lock`, re-check with the clock value read at entry, and if
still invalid refresh over the network and cache the result.  We model
`N` concurrent callers of one `AccessToken` instance as a small-step
transition system; the scheduler (and the passage of time) is the
nondeterminism of the step relation.  A refresh is modelled as
succeeding with expiry duration `E` (the response's `ExpireTime`,
line 85); `reqCount` counts issued refresh requests.  The cached pair
`(self.token, self.expire_time)` is collapsed into `token : Option Int`
holding the expiry instant, since the code clears and checks both
together. -/

/-- Program counter of one `get_token` caller: before the entry check,
blocked on the lock, inside the lock before the re-check, awaiting the
refresh request, or returned. -/
inductive CallerPC where
  | start
  | waiting
  | locked
  | refreshing
  | done
  deriving DecidableEq, Repr

/-- One caller: program counter and the `current_time` captured at
entry (line 38), which lines 41 and 47 both use. -/
structure CallerSt where
  pc : CallerPC
  t0 : Int
  deriving DecidableEq, Repr

/-- Shared state of one `AccessToken` plus the callers. -/
structure TokCfg where
  /-- `self.token` / `self.expire_time`: expiry instant of the cached
  token, `none` when no token is cached. -/
  token : Option Int
  /-- holder of `self._lock`. -/
  owner : Option Nat
  /-- number of refresh requests issued so far. -/
  reqCount : Nat
  clock : Int
  callers : Nat → CallerSt

/-- The freshness test of lines 41 and 47:
`self.token and current_time < self.expire_time - 60`. -/
def tokenValidAt (token : Option Int) (t : Int) : Bool :=
  match token with
  | none => false
  | some e => t < e - 60

/-- Small-step semantics of `N` concurrent `get_token` callers.
`refreshEnd` performs line 86: `expire_time = time.time() + E - 60`,
with `time.time()` the clock at completion of the request. -/
inductive TokStep (N : Nat) (E : Int) : TokCfg → TokCfg → Prop where
  | tick (c : TokCfg) :
      TokStep N E c { c with clock := c.clock + 1 }
  | fastHit (c : TokCfg) (i : Nat) (hi : i < N)
      (hpc : (c.callers i).pc = CallerPC.start)
      (hv : tokenValidAt c.token c.clock = true) :
      TokStep N E c
        { c with callers := Function.update c.callers i ⟨CallerPC.done, c.clock⟩ }
  | fastMiss (c : TokCfg) (i : Nat) (hi : i < N)
      (hpc : (c.callers i).pc = CallerPC.start)
      (hv : tokenValidAt c.token c.clock = false) :
      TokStep N E c
        { c with callers := Function.update c.callers i ⟨CallerPC.waiting, c.clock⟩ }
  | acquire (c : TokCfg) (i : Nat) (hi : i < N)
      (hpc : (c.callers i).pc = CallerPC.waiting)
      (hfree : c.owner = none) :
      TokStep N E c
        { c with owner := some i,
                 callers := Function.update c.callers i
                   ⟨CallerPC.locked, (c.callers i).t0⟩ }
  | recheckHit (c : TokCfg) (i : Nat) (hi : i < N)
      (hpc : (c.callers i).pc = CallerPC.locked)
      (hown : c.owner = some i)
      (hv : tokenValidAt c.token (c.callers i).t0 = true) :
      TokStep N E c
        { c with owner := none,
                 callers := Function.update c.callers i
                   ⟨CallerPC.done, (c.callers i).t0⟩ }
  | refreshBegin (c : TokCfg) (i : Nat) (hi : i < N)
      (hpc : (c.callers i).pc = CallerPC.locked)
      (hown : c.owner = some i)
      (hv : tokenValidAt c.token (c.callers i).t0 = false) :
      TokStep N E c
        { c with callers := Function.update c.callers i
                   ⟨CallerPC.refreshing, (c.callers i).t0⟩ }
  | refreshEnd (c : TokCfg) (i : Nat) (hi : i < N)
      (hpc : (c.callers i).pc = CallerPC.refreshing)
      (hown : c.owner = some i) :
      TokStep N E c
        { c with token := some (c.clock + E - 60),
                 owner := none,
                 reqCount := c.reqCount + 1,
                 callers := Function.update c.callers i
                   ⟨CallerPC.done, (c.callers i).t0⟩ }

/-- Initial configuration: no token cached, lock free, no request
issued yet, all callers about to enter `get_token`. -/
def initTokCfg (c0 : Int) : TokCfg :=
  { token := none, owner := none, reqCount := 0, clock := c0,
    callers := fun _ => ⟨CallerPC.start, c0⟩ }

/-- Reachability invariant of the token-manager transition system. -/
structure TokInv (N : Nat) (E : Int) (c0 : Int) (c : TokCfg) : Prop where
  clock_ge : c0 ≤ c.clock
  t0_le : ∀ i, i < N → (c.callers i).pc ≠ CallerPC.start →
    (c.callers i).t0 ≤ c.clock
  token_fresh : 1 ≤ c.reqCount → ∃ e, c.token = some e ∧ c0 + E - 60 ≤ e
  token_iff : c.token = none ↔ c.reqCount = 0
  second_late : 2 ≤ c.reqCount → c0 + E - 120 ≤ c.clock
  done_token : ∀ i, i < N → (c.callers i).pc = CallerPC.done → c.token ≠ none
  refreshing_late : ∀ i, i < N → (c.callers i).pc = CallerPC.refreshing →
    1 ≤ c.reqCount → c0 + E - 120 ≤ c.clock
  crit_owner : ∀ i, i < N →
    ((c.callers i).pc = CallerPC.locked ∨ (c.callers i).pc = CallerPC.refreshing) →
    c.owner = some i

/-! ## Concrete test data used by counterexamples and witnesses -/

/-- All-zero statistics, as set up by `AliyunProcessor.__init__`. -/
def stats0 : Stats := ⟨0, 0, 0, 0, 0, 0, 0⟩

/-- A well-formed 48-byte WAV file declaring 8000 Hz, mono, 16-bit
PCM, with four data bytes. -/
def wav8k : List Nat :=
  [82, 73, 70, 70, 40, 0, 0, 0, 87, 65, 86, 69,
   102, 109, 116, 32, 16, 0, 0, 0, 1, 0, 1, 0, 64, 31, 0, 0,
   128, 62, 0, 0, 2, 0, 16, 0, 100, 97, 116, 97, 4, 0, 0, 0, 0, 1, 2, 3]

/-- An environment in which all three stages succeed: recognition
returns `你好`, generation returns a plain reply, synthesis returns 200
bytes. -/
def envAllOk : PipelineEnv :=
  { uuidHex := "abcd1234ef567890"
    asrToken := some "tok"
    asrRefresh := []
    asrEvents := [ASREvent.resp (some 20000000) none (some "你好")]
    llmResult := "你好，我是小云，一个智能语音助手，请问有什么可以帮到您？"
    ttsToken := some "tok"
    ttsEvents := [TTSEvent.ok (List.replicate 200 7)] }

/-- `envAllOk` with the recognition response replaced by a domain
error. -/
def envAsrFail : PipelineEnv :=
  { envAllOk with asrEvents := [ASREvent.resp (some 40010004) (some "bad request") none] }

/-- `envAllOk` with the generation result replaced by the text the
generation client returns after exhausting its retries. -/
def envLlmFail : PipelineEnv :=
  { envAllOk with llmResult := "LLM请求失败，达到最大重试次数" }

/-- `envAllOk` with the 200-status synthesis payload shortened to 42
bytes. -/
def envTtsShort : PipelineEnv :=
  { envAllOk with ttsEvents := [TTSEvent.ok (List.replicate 42 7)] }

/-- Demo run of the token manager with two concurrent callers and
`E = 1800`: both miss the fast path. -/
def tokDemo0 : TokCfg := initTokCfg 0

/-- Caller 0 misses the fast path. -/
def tokDemo1 : TokCfg :=
  { tokDemo0 with
      callers := Function.update tokDemo0.callers 0 ⟨CallerPC.waiting, tokDemo0.clock⟩ }

/-- Caller 1 misses the fast path. -/
def tokDemo2 : TokCfg :=
  { tokDemo1 with
      callers := Function.update tokDemo1.callers 1 ⟨CallerPC.waiting, tokDemo1.clock⟩ }

/-- Caller 0 acquires the lock. -/
def tokDemo3 : TokCfg :=
  { tokDemo2 with
      owner := some 0,
      callers := Function.update tokDemo2.callers 0 ⟨CallerPC.locked, (tokDemo2.callers 0).t0⟩ }

/-- Caller 0 re-checks (still no token) and starts the refresh. -/
def tokDemo4 : TokCfg :=
  { tokDemo3 with
      callers := Function.update tokDemo3.callers 0 ⟨CallerPC.refreshing, (tokDemo3.callers 0).t0⟩ }

/-- Caller 0's refresh completes: one request issued, token cached. -/
def tokDemo5 : TokCfg :=
  { tokDemo4 with
      token := some (tokDemo4.clock + 1800 - 60),
      owner := none,
      reqCount := tokDemo4.reqCount + 1,
      callers := Function.update tokDemo4.callers 0 ⟨CallerPC.done, (tokDemo4.callers 0).t0⟩ }

/-- Caller 1 acquires the lock. -/
def tokDemo6 : TokCfg :=
  { tokDemo5 with
      owner := some 1,
      callers := Function.update tokDemo5.callers 1 ⟨CallerPC.locked, (tokDemo5.callers 1).t0⟩ }

/-- Caller 1's re-check hits the freshly cached token: no second
request. -/
def tokDemo7 : TokCfg :=
  { tokDemo6 with
      owner := none,
      callers := Function.update tokDemo6.callers 1 ⟨CallerPC.done, (tokDemo6.callers 1).t0⟩ }

/-! ## Theorems -/

/-- C2, counterexample: on HTTP 200 with provider status `20000000` and
an absent `result` field, `speech_to_text` does **not** return a nil
error component as the claim states — the returned pair is
`("", "ASR返回空结果")`, whose error component is non-nil. -/
theorem asr_empty_result_counterexample :
    (speech_to_text (some "tok") [] [ASREvent.resp (some 20000000) none none]).1.2 ≠ none ∧
    (speech_to_text (some "tok") [] [ASREvent.resp (some 20000000) none none]).1 =
      (some "", some "ASR返回空结果") := by
  constructor
  · decide
  · rfl

/-- C2, amended: on HTTP 200 with provider status `20000000` and an
absent-or-empty `result` field, `speech_to_text` returns the empty
string **together with the error marker** `"ASR返回空结果"` (so the
orchestrator treats the invocation as failed), after exactly one
attempt. -/
theorem asr_empty_result_returns_error_marker
    (token : Option String) (refresh : List (Option String))
    (message result : Option String) (rest : List ASREvent)
    (htok : truthyO token = true) (hres : truthyO result = false) :
    speech_to_text token refresh (ASREvent.resp (some 20000000) message result :: rest) =
      ((some "", some "ASR返回空结果"), 1) := by
  simp [speech_to_text, htok, sttLoop, hres]

/-- C2, witness for the amended theorem. -/
theorem asr_empty_result_returns_error_marker_witness :
    truthyO (some "tok") = true ∧ truthyO (some "") = false ∧
    speech_to_text (some "tok") [] [ASREvent.resp (some 20000000) (none) (some "")] =
      ((some "", some "ASR返回空结果"), 1) :=
  ⟨by decide, by decide,
    asr_empty_result_returns_error_marker (some "tok") [] none (some "") []
      (by decide) (by decide)⟩

/-- The recognition loop never performs more than `3 - attempt`
attempts when entered at attempt index `attempt < 3`: every branch
either returns or recurses under the guard `attempt < 2`. -/
theorem sttLoop_attempts_le (events : List ASREvent) :
    ∀ (refresh : List (Option String)) (attempt : Nat), attempt < 3 →
      (sttLoop refresh events attempt).2 ≤ 3 - attempt := by
  induction events with
  | nil => intro refresh attempt _; simp [sttLoop]
  | cons e rest ih =>
    intro refresh attempt hlt
    cases e with
    | resp status message result =>
      by_cases h20 : status = some 20000000
      · simp only [sttLoop, h20, if_true]
        by_cases hres : truthyO result <;> simp [hres] <;> omega
      · by_cases hcont : status = some 40000004 ∧ truthyO (refresh.headD none) = true ∧ attempt < 2
        · have := ih refresh.tail (attempt + 1) (by omega)
          simp only [sttLoop, h20, if_false]
          rw [if_pos (by exact ⟨hcont.1, hcont.2.1, hcont.2.2⟩)]
          simp only []
          omega
        · simp only [sttLoop, h20, if_false]
          rw [if_neg (by intro hc; exact hcont ⟨hc.1, hc.2.1, hc.2.2⟩)]
          simp; omega
    | httpErr code body =>
      by_cases hcont : (code = 408 ∨ 500 ≤ code) ∧ attempt < 2
      · have := ih refresh (attempt + 1) (by omega)
        simp only [sttLoop]
        rw [if_pos hcont]
        simp only []
        omega
      · simp only [sttLoop]
        rw [if_neg hcont]
        simp; omega
    | timeout =>
      by_cases hcont : attempt < 2
      · have := ih refresh (attempt + 1) (by omega)
        simp only [sttLoop]
        rw [if_pos hcont]
        simp only []
        omega
      · simp only [sttLoop]
        rw [if_neg hcont]
        simp; omega
    | exn m =>
      by_cases hcont : attempt < 2
      · have := ih refresh (attempt + 1) (by omega)
        simp only [sttLoop]
        rw [if_pos hcont]
        simp only []
        omega
      · simp only [sttLoop]
        rw [if_neg hcont]
        simp; omega

/-- C3, counterexample: with an invalid-token (40000004) response
first, a successful token refresh, then two retryable HTTP-500
responses and a successful recognition response available fourth, the
claim would give the loop 1 + 3 attempts and a successful result;
the code stops after 3 attempts with the HTTP-500 error and never
reaches the fourth response. -/
theorem asr_token_retry_budget_counterexample :
    (speech_to_text (some "tok") [some "fresh"]
        [ASREvent.resp (some 40000004) (some "token expired") none,
         ASREvent.httpErr 500 "server error",
         ASREvent.httpErr 500 "server error",
         ASREvent.resp (some 20000000) none (some "你好")]).1 =
      (none, some "ASR请求失败: HTTP 500 - server error") ∧
    (speech_to_text (some "tok") [some "fresh"]
        [ASREvent.resp (some 40000004) (some "token expired") none,
         ASREvent.httpErr 500 "server error",
         ASREvent.httpErr 500 "server error",
         ASREvent.resp (some 20000000) none (some "你好")]).2 = 3 := by
  constructor
  · rfl
  · rfl

/-- C3, amended: an invalid-token (40000004) response does trigger a
token refresh and, when the refreshed token is truthy and attempts
remain, a retry — but the retry is **counted against** the shared
3-attempt budget: the remaining events are processed starting from
attempt index 1 and contribute at most 2 further attempts, so at most
3 attempts happen in total. -/
theorem asr_token_retry_consumes_budget
    (token : Option String) (refresh : List (Option String))
    (message result : Option String) (rest : List ASREvent)
    (htok : truthyO token = true)
    (hfresh : truthyO (refresh.headD none) = true) :
    (speech_to_text token refresh
        (ASREvent.resp (some 40000004) message result :: rest)).2 =
      1 + (sttLoop refresh.tail rest 1).2 ∧
    (sttLoop refresh.tail rest 1).2 ≤ 2 ∧
    (speech_to_text token refresh
        (ASREvent.resp (some 40000004) message result :: rest)).2 ≤ 3 := by
  have hle := sttLoop_attempts_le rest refresh.tail 1 (by omega)
  have hmain : (speech_to_text token refresh
      (ASREvent.resp (some 40000004) message result :: rest)).2 =
      1 + (sttLoop refresh.tail rest 1).2 := by
    simp only [speech_to_text, htok, if_true]
    rw [sttLoop]
    rw [if_neg (by decide)]
    rw [if_pos ⟨rfl, hfresh, by omega⟩]
    simp only [Nat.zero_add]
    omega
  refine ⟨hmain, by omega, by omega⟩

/-- C3, witness for the amended theorem. -/
theorem asr_token_retry_consumes_budget_witness :
    truthyO (some "tok") = true ∧ truthyO ([some "fresh"].headD none) = true ∧
    ((speech_to_text (some "tok") [some "fresh"]
        [ASREvent.resp (some 40000004) none none, ASREvent.timeout, ASREvent.timeout]).2 =
      1 + (sttLoop [] [ASREvent.timeout, ASREvent.timeout] 1).2 ∧
    (sttLoop [] [ASREvent.timeout, ASREvent.timeout] 1).2 ≤ 2 ∧
    (speech_to_text (some "tok") [some "fresh"]
        [ASREvent.resp (some 40000004) none none, ASREvent.timeout, ASREvent.timeout]).2 ≤ 3) :=
  ⟨by decide, by decide,
    asr_token_retry_consumes_budget (some "tok") [some "fresh"] none none
      [ASREvent.timeout, ASREvent.timeout] (by decide) (by decide)⟩

/-- C8: empty or whitespace-only input text makes `text_to_speech`
return empty bytes immediately with an empty network-call log — no
token fetch and no synthesis request. -/
theorem tts_blank_text_no_network (token : Option String) (text : String)
    (events : List TTSEvent) (hblank : pyBlank text = true) :
    text_to_speech token text events = ([], []) := by
  simp [text_to_speech, hblank]

/-- C8, witness: a whitespace-only text. -/
theorem tts_blank_text_no_network_witness :
    pyBlank "  " = true ∧
    text_to_speech (some "tok") "  " [TTSEvent.ok [1, 2, 3]] = ([], []) :=
  ⟨by decide, tts_blank_text_no_network (some "tok") "  " [TTSEvent.ok [1, 2, 3]] (by decide)⟩

/-- Mutations through one reference leave every other cell
unchanged. -/
theorem dictWrites_cells_ne (fs : List (Stats → Stats)) :
    ∀ (h : StatsHeap) (r s : Nat), s ≠ r → (dictWrites h r fs).cells s = h.cells s := by
  induction fs with
  | nil => intro h r s _; rfl
  | cons f fs ih =>
    intro h r s hne
    rw [dictWrites, ih _ _ _ hne, dictWrite]
    exact Function.update_noteq hne _ _

/-- `List.length` agrees with Python's `len(x) if x else 0`. -/
theorem pyLenOrZero_eq_length (l : List Nat) : pyLenOrZero l = l.length := by
  cases l <;> simp [pyLenOrZero]

/-- C10: `get_stats` returns an independent copy — any sequence of
in-place mutations applied through the returned reference leaves the
orchestrator's own `stats` cell unchanged, and two successive
`get_stats` calls with no intervening pipeline activity return
dictionaries with equal contents. -/
theorem get_stats_returns_independent_copy (statsRef : Nat) (h : StatsHeap)
    (fs : List (Stats → Stats)) (hv : statsRef < h.next) :
    (dictWrites (get_stats statsRef h).2 (get_stats statsRef h).1 fs).cells statsRef =
      h.cells statsRef ∧
    (get_stats statsRef h).2.cells (get_stats statsRef h).1 =
      (get_stats statsRef (get_stats statsRef h).2).2.cells
        (get_stats statsRef (get_stats statsRef h).2).1 := by
  have hne : statsRef ≠ h.next := by omega
  constructor
  · rw [dictWrites_cells_ne fs _ _ _ (show statsRef ≠ (get_stats statsRef h).1 from hne)]
    exact Function.update_noteq hne _ _
  · show Function.update h.cells h.next (h.cells statsRef) h.next = _
    rw [Function.update_same]
    show _ = Function.update (Function.update h.cells h.next (h.cells statsRef)) (h.next + 1)
      ((Function.update h.cells h.next (h.cells statsRef)) statsRef) (h.next + 1)
    rw [Function.update_same, Function.update_noteq hne]

/-- C10, witness. -/
theorem get_stats_returns_independent_copy_witness :
    (0 : Nat) < 1 ∧
    ((dictWrites (get_stats 0 ⟨fun _ => stats0, 1⟩).2 (get_stats 0 ⟨fun _ => stats0, 1⟩).1
        [fun s => { s with asr_success := 99 }]).cells 0 =
      StatsHeap.cells ⟨fun _ => stats0, 1⟩ 0 ∧
    (get_stats 0 ⟨fun _ => stats0, 1⟩).2.cells (get_stats 0 ⟨fun _ => stats0, 1⟩).1 =
      (get_stats 0 (get_stats 0 ⟨fun _ => stats0, 1⟩).2).2.cells
        (get_stats 0 (get_stats 0 ⟨fun _ => stats0, 1⟩).2).1) :=
  ⟨by decide,
    get_stats_returns_independent_copy 0 ⟨fun _ => stats0, 1⟩
      [fun s => { s with asr_success := 99 }] (by decide)⟩

/-- C7: a blocking synthesis call that got HTTP 200 but a payload
shorter than 100 bytes is treated by the pipeline as a failure: the
payload is exactly what `text_to_speech` returned, and `process`
reports a synthesis failure instead of returning it as usable
audio. -/
theorem tts_short_payload_is_failure (env : PipelineEnv) (hist : List HistEntry)
    (stats : Stats) (payload : List Nat) (rest : List TTSEvent)
    (hasr : asrCallFailed (asrPair env) = false)
    (hllm : llmFailCheck env.llmResult = false)
    (hblank : pyBlank env.llmResult = false)
    (htok : truthyO env.ttsToken = true)
    (hev : env.ttsEvents = TTSEvent.ok payload :: rest)
    (hlen : payload.length < 100) :
    ttsAudioOf env = payload ∧
    (process env hist stats).1 =
      ProcessResult.error ("TTS合成失败，音频长度: " ++ toString payload.length ++ "字节") := by
  have htts : (text_to_speech env.ttsToken env.llmResult env.ttsEvents).1 = payload := by
    rw [hev]; simp [text_to_speech, hblank, htok, ttsLoop]
  have hshort : ttsShortB payload = true := by
    simp [ttsShortB]; omega
  have hasr' : asrCallFailed (speech_to_text env.asrToken env.asrRefresh env.asrEvents).1 = false := hasr
  refine ⟨htts, ?_⟩
  simp only [process, hasr', Bool.false_eq_true, if_false, hllm, htts, hshort, if_true,
    pyLenOrZero_eq_length]

/-- C7, witness. -/
theorem tts_short_payload_is_failure_witness :
    asrCallFailed (asrPair envTtsShort) = false ∧
    llmFailCheck envTtsShort.llmResult = false ∧
    pyBlank envTtsShort.llmResult = false ∧
    truthyO envTtsShort.ttsToken = true ∧
    envTtsShort.ttsEvents = TTSEvent.ok (List.replicate 42 7) :: [] ∧
    (List.replicate 42 7).length < 100 ∧
    (ttsAudioOf envTtsShort = List.replicate 42 7 ∧
      (process envTtsShort [] stats0).1 =
        ProcessResult.error ("TTS合成失败，音频长度: " ++ toString (List.replicate 42 7).length ++ "字节")) :=
  ⟨by decide, by decide, by decide, by decide, by decide, by decide,
    tts_short_payload_is_failure envTtsShort [] stats0 (List.replicate 42 7) []
      (by decide) (by decide) (by decide) (by decide) (by decide) (by decide)⟩

/-- C1: once a stage fails, `process` returns that stage's failure and
attempts no later stage.  A recognition failure returns an
`ASR`-prefixed error after only the recognition call; a generation
failure returns the `LLM处理失败` error with no synthesis call made; a
synthesis failure returns the `TTS合成失败` error.  In each case the
result dictionary carries exactly the one error message. -/
theorem process_stops_at_first_failed_stage (env : PipelineEnv)
    (hist : List HistEntry) (stats : Stats) :
    (asrCallFailed (asrPair env) = true →
      (process env hist stats).1 = ProcessResult.error (asrFailMsgOf (asrPair env)) ∧
      (process env hist stats).2.1 = [Call.asrCall (sessionIdOf env.uuidHex)] ∧
      ∃ s, asrFailMsgOf (asrPair env) = "ASR" ++ s) ∧
    (asrCallFailed (asrPair env) = false → llmFailCheck env.llmResult = true →
      (process env hist stats).1 =
        ProcessResult.error ("LLM处理失败: " ++ env.llmResult.take 200 ++ "...") ∧
      ∃ m, (process env hist stats).2.1 =
        [Call.asrCall (sessionIdOf env.uuidHex), Call.llmCall m]) ∧
    (asrCallFailed (asrPair env) = false → llmFailCheck env.llmResult = false →
      ttsShortB (ttsAudioOf env) = true →
      (process env hist stats).1 =
        ProcessResult.error
          ("TTS合成失败，音频长度: " ++ toString (pyLenOrZero (ttsAudioOf env)) ++ "字节") ∧
      ∃ m, (process env hist stats).2.1 =
        [Call.asrCall (sessionIdOf env.uuidHex), Call.llmCall m,
          Call.ttsCall env.llmResult (sessionIdOf env.uuidHex)]) := by
  refine ⟨fun hasr => ?_, fun hasr hllm => ?_, fun hasr hllm htts => ?_⟩
  · have hasr' : asrCallFailed (speech_to_text env.asrToken env.asrRefresh env.asrEvents).1 = true := hasr
    refine ⟨?_, ?_, ?_⟩
    · simp only [process, hasr', if_true]
      rfl
    · simp only [process, hasr', if_true]
    · unfold asrFailMsgOf
      by_cases h : truthyO (asrPair env).2 = true
      · rw [if_pos h]
        refine ⟨"失败: " ++ (asrPair env).2.getD "", ?_⟩
        rw [← String.append_assoc]
        rfl
      · rw [if_neg h]
        exact ⟨"返回空结果", rfl⟩
  · have hasr' : asrCallFailed (speech_to_text env.asrToken env.asrRefresh env.asrEvents).1 = false := hasr
    refine ⟨?_, ?_⟩
    · simp only [process, hasr', Bool.false_eq_true, if_false, hllm, if_true]
    · refine ⟨Msg.mk "system" systemPrompt ::
        ((hist.filter validHist).map histToMsg ++
          [Msg.mk "user"
            ((speech_to_text env.asrToken env.asrRefresh env.asrEvents).1.1.getD "")]), ?_⟩
      simp only [process, hasr', Bool.false_eq_true, if_false, hllm, if_true]
      rfl
  · have hasr' : asrCallFailed (speech_to_text env.asrToken env.asrRefresh env.asrEvents).1 = false := hasr
    have htts' : ttsShortB (text_to_speech env.ttsToken env.llmResult env.ttsEvents).1 = true := htts
    refine ⟨?_, ?_⟩
    · simp only [process, hasr', Bool.false_eq_true, if_false, hllm, htts', if_true]
      rfl
    · refine ⟨Msg.mk "system" systemPrompt ::
        ((hist.filter validHist).map histToMsg ++
          [Msg.mk "user"
            ((speech_to_text env.asrToken env.asrRefresh env.asrEvents).1.1.getD "")]), ?_⟩
      simp only [process, hasr', Bool.false_eq_true, if_false, hllm, htts', if_true]
      rfl

/-- C1, witness: one environment per failing stage. -/
theorem process_stops_at_first_failed_stage_witness :
    (asrCallFailed (asrPair envAsrFail) = true ∧
      (process envAsrFail [] stats0).1 = ProcessResult.error (asrFailMsgOf (asrPair envAsrFail)) ∧
      (process envAsrFail [] stats0).2.1 = [Call.asrCall (sessionIdOf envAsrFail.uuidHex)]) ∧
    (asrCallFailed (asrPair envLlmFail) = false ∧ llmFailCheck envLlmFail.llmResult = true ∧
      (process envLlmFail [] stats0).1 =
        ProcessResult.error ("LLM处理失败: " ++ envLlmFail.llmResult.take 200 ++ "...")) ∧
    (asrCallFailed (asrPair envTtsShort) = false ∧ llmFailCheck envTtsShort.llmResult = false ∧
      ttsShortB (ttsAudioOf envTtsShort) = true ∧
      (process envTtsShort [] stats0).1 =
        ProcessResult.error
          ("TTS合成失败，音频长度: " ++ toString (pyLenOrZero (ttsAudioOf envTtsShort)) ++ "字节")) := by
  refine ⟨⟨by decide, ?_, ?_⟩, ⟨by decide, by decide, ?_⟩, ⟨by decide, by decide, by decide, ?_⟩⟩
  · exact ((process_stops_at_first_failed_stage envAsrFail [] stats0).1 (by decide)).1
  · exact ((process_stops_at_first_failed_stage envAsrFail [] stats0).1 (by decide)).2.1
  · exact ((process_stops_at_first_failed_stage envLlmFail [] stats0).2.1 (by decide) (by decide)).1
  · exact ((process_stops_at_first_failed_stage envTtsShort [] stats0).2.2 (by decide) (by decide)
      (by decide)).1

set_option maxRecDepth 4000 in
/-- C9, counterexample: in a fully successful invocation the downstream
calls are recognition, generation and synthesis, but it is **not** the
case that every one of them receives the invocation's session id — the
generation call (`generate_response(messages)`, line 719) has no
session-id parameter. -/
theorem session_id_not_passed_to_llm_counterexample :
    ¬ (∀ c ∈ (process envAllOk [] stats0).2.1,
        callSession c = some (sessionIdOf envAllOk.uuidHex)) := by
  decide

/-- C9, amended: a fresh session identifier derived from the
per-invocation UUID is passed to the recognition call and to the
synthesis call (the same identifier), while the generation call,
which has no session-id parameter, receives none. -/
theorem session_id_passed_to_asr_and_tts (env : PipelineEnv)
    (hist : List HistEntry) (stats : Stats)
    (hasr : asrCallFailed (asrPair env) = false)
    (hllm : llmFailCheck env.llmResult = false) :
    Call.asrCall (sessionIdOf env.uuidHex) ∈ (process env hist stats).2.1 ∧
    Call.ttsCall env.llmResult (sessionIdOf env.uuidHex) ∈ (process env hist stats).2.1 ∧
    ∃ m, Call.llmCall m ∈ (process env hist stats).2.1 ∧
      callSession (Call.llmCall m) = none := by
  have hasr' : asrCallFailed (speech_to_text env.asrToken env.asrRefresh env.asrEvents).1 = false := hasr
  have hcalls : (process env hist stats).2.1 =
      [Call.asrCall (sessionIdOf env.uuidHex),
       Call.llmCall (Msg.mk "system" systemPrompt ::
          ((hist.filter validHist).map histToMsg ++
            [Msg.mk "user"
              ((speech_to_text env.asrToken env.asrRefresh env.asrEvents).1.1.getD "")])),
       Call.ttsCall env.llmResult (sessionIdOf env.uuidHex)] := by
    by_cases htts : ttsShortB (text_to_speech env.ttsToken env.llmResult env.ttsEvents).1 = true
    · simp only [process, hasr', Bool.false_eq_true, if_false, hllm, htts, if_true]
      rfl
    · rw [Bool.not_eq_true] at htts
      simp only [process, hasr', Bool.false_eq_true, if_false, hllm, htts, if_true]
      rfl
  refine ⟨?_, ?_,
    ⟨Msg.mk "system" systemPrompt ::
        ((hist.filter validHist).map histToMsg ++
          [Msg.mk "user"
            ((speech_to_text env.asrToken env.asrRefresh env.asrEvents).1.1.getD "")]),
      ?_, rfl⟩⟩
  · rw [hcalls]; simp
  · rw [hcalls]; simp
  · rw [hcalls]; simp

/-- C9, witness for the amended theorem. -/
theorem session_id_passed_to_asr_and_tts_witness :
    asrCallFailed (asrPair envAllOk) = false ∧
    llmFailCheck envAllOk.llmResult = false ∧
    (Call.asrCall (sessionIdOf envAllOk.uuidHex) ∈ (process envAllOk [] stats0).2.1 ∧
    Call.ttsCall envAllOk.llmResult (sessionIdOf envAllOk.uuidHex) ∈ (process envAllOk [] stats0).2.1 ∧
    ∃ m, Call.llmCall m ∈ (process envAllOk [] stats0).2.1 ∧
      callSession (Call.llmCall m) = none) :=
  ⟨by decide, by decide,
    session_id_passed_to_asr_and_tts envAllOk [] stats0 (by decide) (by decide)⟩

/-- C5: `_validate_audio_format` returns `true` exactly when the bytes
parse as a WAV container whose header yields sample rate 16000 Hz, 1
channel and a 2-byte sample width, and it is a total Boolean function —
mismatching or unparsable input yields `false`. -/
theorem validate_audio_format_iff (data : List Nat) :
    validateAudioFormat data = true ↔
      ∃ info, parseWav data = some info ∧
        info.framerate = 16000 ∧ info.nchannels = 1 ∧ info.sampwidth = 2 := by
  constructor
  · intro ht
    cases hp : parseWav data with
    | none =>
      rw [validateAudioFormat, hp] at ht
      exact absurd ht (by simp)
    | some info =>
      rw [validateAudioFormat, hp] at ht
      refine ⟨info, rfl, ?_, ?_, ?_⟩ <;> by_contra hc <;> simp [hc] at ht
  · rintro ⟨info, hp, h1, h2, h3⟩
    rw [validateAudioFormat, hp]
    simp [h1, h2, h3]

/-- A 32-bit size field written by the `wave` writer reads back as the
written value while it fits in 32 bits. -/
theorem u32le_u32bytes (n : Nat) (h : n < 4294967296) : u32le (u32bytes n) = some n := by
  simp only [u32le, u32bytes]
  congr 1
  omega

/-- Parsing the canonical 44-byte header produced by the `wave` writer
(spelled out byte by byte, with `n` the data length and `t` the frame
bytes) succeeds with the canonical parameters. -/
theorem parse_header44_spine (n : Nat) (t : List Nat) (h : 36 + n < 4294967296) :
    parseWav (82 :: 73 :: 70 :: 70 ::
      ((36 + n) % 256) :: ((36 + n) / 256 % 256) ::
      ((36 + n) / 65536 % 256) :: ((36 + n) / 16777216 % 256) ::
      87 :: 65 :: 86 :: 69 ::
      102 :: 109 :: 116 :: 32 :: 16 :: 0 :: 0 :: 0 ::
      1 :: 0 :: 1 :: 0 :: 128 :: 62 :: 0 :: 0 :: 0 :: 125 :: 0 :: 0 ::
      2 :: 0 :: 16 :: 0 ::
      100 :: 97 :: 116 :: 97 ::
      (n % 256) :: (n / 256 % 256) :: (n / 65536 % 256) :: (n / 16777216 % 256) :: t) =
      some ⟨16000, 1, 2, 44, n, n⟩ := by
  set D : List Nat := (82 :: 73 :: 70 :: 70 ::
      ((36 + n) % 256) :: ((36 + n) / 256 % 256) ::
      ((36 + n) / 65536 % 256) :: ((36 + n) / 16777216 % 256) ::
      87 :: 65 :: 86 :: 69 ::
      102 :: 109 :: 116 :: 32 :: 16 :: 0 :: 0 :: 0 ::
      1 :: 0 :: 1 :: 0 :: 128 :: 62 :: 0 :: 0 :: 0 :: 125 :: 0 :: 0 ::
      2 :: 0 :: 16 :: 0 ::
      100 :: 97 :: 116 :: 97 ::
      (n % 256) :: (n / 256 % 256) :: (n / 65536 % 256) :: (n / 16777216 % 256) :: t) with hD
  have h0 : readBytes D 0 4 = riffName := rfl
  have hoc : u32le (readBytes D 4 4) = some (36 + n) := by
    show u32le [(36 + n) % 256, (36 + n) / 256 % 256,
      (36 + n) / 65536 % 256, (36 + n) / 16777216 % 256] = some (36 + n)
    simp only [u32le]
    congr 1
    omega
  have hwave : outerRead D (36 + n) 0 4 = waveName := by
    rw [outerRead, show min 4 (36 + n - 0) = 4 from by omega]
    rfl
  simp only [parseWav, h0, hoc, hwave]
  rw [if_neg (by simp), if_neg (by simp)]
  have hname1 : outerRead D (36 + n) 4 4 = fmtName := by
    rw [outerRead, show min 4 (36 + n - 4) = 4 from by omega]
    rfl
  have hsz1 : u32le (outerRead D (36 + n) (4 + 4) 4) = some 16 := by
    rw [outerRead, show min 4 (36 + n - (4 + 4)) = 4 from by omega]
    rfl
  have hb14 : outerRead D (36 + n) (4 + 8) (min 14 16) =
      [1, 0, 1, 0, 128, 62, 0, 0, 0, 125, 0, 0, 2, 0] := by
    rw [outerRead, show min (min 14 16) (36 + n - (4 + 8)) = 14 from by omega]
    rfl
  have hb2 : outerRead D (36 + n) (4 + 8 + 14) (min 2 (16 - 14)) = [16, 0] := by
    rw [outerRead, show min (min 2 (16 - 14)) (36 + n - (4 + 8 + 14)) = 2 from by omega]
    rfl
  have hfmt : readFmt D (36 + n) (4 + 8) 16 = some ⟨16000, 1, 2⟩ := by
    rw [readFmt, hb14, hb2]
    rfl
  simp only [scanChunks, hname1, hsz1, hfmt]
  rw [if_neg (by decide), if_pos trivial,
    show (4 + 8 + 16 + (16 - 16 + if 16 % 2 = 1 then 1 else 0)) = 28 from by norm_num,
    if_neg (by omega)]
  conv_lhs => rw [show (36 + n : Nat) = (35 + n) + 1 from by omega]
  have hname2 : outerRead D (35 + n + 1) 28 4 = dataName := by
    rw [outerRead, show min 4 (35 + n + 1 - 28) = 4 from by omega]
    rfl
  have hsz2 : u32le (outerRead D (35 + n + 1) (28 + 4) 4) = some n := by
    rw [outerRead, show min 4 (35 + n + 1 - (28 + 4)) = 4 from by omega]
    show u32le [n % 256, n / 256 % 256, n / 65536 % 256, n / 16777216 % 256] = some n
    simp only [u32le]
    congr 1
    omega
  simp only [scanChunks, hname2, hsz2]
  rw [if_neg (by decide), if_neg (by decide), if_pos trivial]
  simp only [Option.some.injEq, WavInfo.mk.injEq, true_and]
  omega

/-- The `wave` writer's output parses back with the canonical
parameters. -/
theorem parse_wavWrite16k (frames : List Nat) (h : 36 + frames.length < 4294967296) :
    parseWav (wavWrite16k frames) =
      some ⟨16000, 1, 2, 44, frames.length, frames.length⟩ := by
  have hsp : wavWrite16k frames =
      82 :: 73 :: 70 :: 70 ::
      ((36 + frames.length) % 256) :: ((36 + frames.length) / 256 % 256) ::
      ((36 + frames.length) / 65536 % 256) :: ((36 + frames.length) / 16777216 % 256) ::
      87 :: 65 :: 86 :: 69 ::
      102 :: 109 :: 116 :: 32 :: 16 :: 0 :: 0 :: 0 ::
      1 :: 0 :: 1 :: 0 :: 128 :: 62 :: 0 :: 0 :: 0 :: 125 :: 0 :: 0 ::
      2 :: 0 :: 16 :: 0 ::
      100 :: 97 :: 116 :: 97 ::
      (frames.length % 256) :: (frames.length / 256 % 256) ::
      (frames.length / 65536 % 256) :: (frames.length / 16777216 % 256) :: frames := rfl
  rw [hsp]
  exact parse_header44_spine frames.length frames h

/-- A bounded read never returns more bytes than the file holds. -/
theorem readBytes_length_le (data : List Nat) (p m : Nat) :
    (readBytes data p m).length ≤ data.length := by
  rw [readBytes, List.length_take, List.length_drop]
  omega

/-- The software fallback's output is accepted by the validator for
every parseable input (of realistic size): a canonical input is
returned unchanged, any other is rewritten under the canonical
header. -/
theorem validate_simpleAudioConversion (data : List Nat) (info : WavInfo)
    (hp : parseWav data = some info) (hsize : data.length + 44 < 4294967296) :
    validateAudioFormat (simpleAudioConversion data) = true := by
  have hframes : (readFramesBytes data info).length ≤ data.length := by
    rw [readFramesBytes]
    exact readBytes_length_le _ _ _
  have hfit : 36 + (readFramesBytes data info).length < 4294967296 := by omega
  simp only [simpleAudioConversion, hp]
  by_cases hcanon : info.framerate = 16000 ∧ info.nchannels = 1 ∧ info.sampwidth = 2
  · rw [if_pos hcanon]
    rw [validateAudioFormat, hp]
    simp [hcanon.1, hcanon.2.1, hcanon.2.2]
  · rw [if_neg hcanon, if_pos hfit]
    rw [validateAudioFormat, parse_wavWrite16k _ hfit]
    simp

/-- C6, counterexample: on a parseable 8000 Hz WAV input, when the
`ffmpeg` conversion times out (`subprocess.TimeoutExpired`),
`_convert_audio_sync` returns the original bytes unchanged — the
software fallback is not used — and the validator rejects the result,
contradicting the claim that normalization returns accepted audio. -/
theorem normalize_timeout_counterexample :
    parseWav wav8k = some ⟨8000, 1, 2, 44, 4, 4⟩ ∧
    convertAudioSync FfmpegOutcome.timeout wav8k = wav8k ∧
    validateAudioFormat (convertAudioSync FfmpegOutcome.timeout wav8k) = false := by
  refine ⟨by decide, rfl, by decide⟩

/-- C6, amended: for every parseable WAV input (of realistic size)
whose declared sample rate differs from 16000 Hz, normalization returns
audio that the validator accepts **when the `ffmpeg` converter exits
nonzero or is unavailable**, because then the software fallback path
runs; on an `ffmpeg` timeout the original bytes are returned unchanged
(and rejected), and on `ffmpeg` success the tool's output is returned
unverified. -/
theorem normalize_fallback_validates (data : List Nat) (info : WavInfo)
    (ff : FfmpegOutcome)
    (hp : parseWav data = some info)
    (_hrate : info.framerate ≠ 16000)
    (hff : ff = FfmpegOutcome.exitNonzero ∨ ff = FfmpegOutcome.unavailable)
    (hsize : data.length + 44 < 4294967296) :
    validateAudioFormat (convertAudioSync ff data) = true := by
  rcases hff with hff | hff <;> rw [hff, convertAudioSync] <;>
    exact validate_simpleAudioConversion data info hp hsize

/-- C6, witness for the amended theorem. -/
theorem normalize_fallback_validates_witness :
    parseWav wav8k = some ⟨8000, 1, 2, 44, 4, 4⟩ ∧
    (8000 : Nat) ≠ 16000 ∧
    wav8k.length + 44 < 4294967296 ∧
    validateAudioFormat (convertAudioSync FfmpegOutcome.exitNonzero wav8k) = true :=
  ⟨by decide, by decide, by decide,
    normalize_fallback_validates wav8k ⟨8000, 1, 2, 44, 4, 4⟩ FfmpegOutcome.exitNonzero
      (by decide) (by decide) (Or.inl rfl) (by decide)⟩

/-- The invariant holds in the initial configuration. -/
theorem tokInv_init (N : Nat) (E : Int) (c0 : Int) : TokInv N E c0 (initTokCfg c0) := by
  refine ⟨le_refl _, ?_, ?_, ?_, ?_, ?_, ?_, ?_⟩ <;>
    simp [initTokCfg]

/-- The invariant is preserved by every step of the token-manager
transition system. -/
theorem tokInv_step {N : Nat} {E : Int} {c0 : Int} {c c' : TokCfg}
    (hstep : TokStep N E c c') (hinv : TokInv N E c0 c) : TokInv N E c0 c' := by
  obtain ⟨g1, g2, g3, g4, g5, g6, g7, g8⟩ := hinv
  cases hstep with
  | tick =>
    refine ⟨?_, ?_, g3, g4, ?_, g6, ?_, g8⟩
    · simp only []
      omega
    · intro j hj hne
      have := g2 j hj hne
      simp only [] at *
      omega
    · intro h2
      have := g5 h2
      simp only []
      omega
    · intro j hj hr hq
      have := g7 j hj hr hq
      simp only []
      omega
  | fastHit i hi hpc hv =>
    have htok : c.token ≠ none := by
      intro htk
      rw [htk] at hv
      simp [tokenValidAt] at hv
    refine ⟨g1, ?_, g3, g4, g5, ?_, ?_, ?_⟩
    · intro j hj hne
      simp only [] at hne ⊢
      rcases eq_or_ne j i with rfl | hne'
      · rw [Function.update_same]
      · rw [Function.update_noteq hne'] at hne ⊢
        exact g2 j hj hne
    · intro j _ _
      exact htok
    · intro j hj hr hq
      simp only [] at hr
      rcases eq_or_ne j i with rfl | hne'
      · rw [Function.update_same] at hr
        cases hr
      · rw [Function.update_noteq hne'] at hr
        exact g7 j hj hr hq
    · intro j hj hcrit
      simp only [] at hcrit ⊢
      rcases eq_or_ne j i with rfl | hne'
      · rw [Function.update_same] at hcrit
        rcases hcrit with h | h <;> cases h
      · rw [Function.update_noteq hne'] at hcrit
        exact g8 j hj hcrit
  | fastMiss i hi hpc hv =>
    refine ⟨g1, ?_, g3, g4, g5, ?_, ?_, ?_⟩
    · intro j hj hne
      simp only [] at hne ⊢
      rcases eq_or_ne j i with rfl | hne'
      · rw [Function.update_same]
      · rw [Function.update_noteq hne'] at hne ⊢
        exact g2 j hj hne
    · intro j hj hd
      simp only [] at hd
      rcases eq_or_ne j i with rfl | hne'
      · rw [Function.update_same] at hd
        cases hd
      · rw [Function.update_noteq hne'] at hd
        exact g6 j hj hd
    · intro j hj hr hq
      simp only [] at hr
      rcases eq_or_ne j i with rfl | hne'
      · rw [Function.update_same] at hr
        cases hr
      · rw [Function.update_noteq hne'] at hr
        exact g7 j hj hr hq
    · intro j hj hcrit
      simp only [] at hcrit ⊢
      rcases eq_or_ne j i with rfl | hne'
      · rw [Function.update_same] at hcrit
        rcases hcrit with h | h <;> cases h
      · rw [Function.update_noteq hne'] at hcrit
        exact g8 j hj hcrit
  | acquire i hi hpc hfree =>
    refine ⟨g1, ?_, g3, g4, g5, ?_, ?_, ?_⟩
    · intro j hj hne
      simp only [] at hne ⊢
      rcases eq_or_ne j i with rfl | hne'
      · rw [Function.update_same]
        exact g2 j hj (by rw [hpc]; simp)
      · rw [Function.update_noteq hne'] at hne ⊢
        exact g2 j hj hne
    · intro j hj hd
      simp only [] at hd
      rcases eq_or_ne j i with rfl | hne'
      · rw [Function.update_same] at hd
        cases hd
      · rw [Function.update_noteq hne'] at hd
        exact g6 j hj hd
    · intro j hj hr hq
      simp only [] at hr
      rcases eq_or_ne j i with rfl | hne'
      · rw [Function.update_same] at hr
        cases hr
      · rw [Function.update_noteq hne'] at hr
        exact g7 j hj hr hq
    · intro j hj hcrit
      simp only [] at hcrit ⊢
      rcases eq_or_ne j i with rfl | hne'
      · rfl
      · rw [Function.update_noteq hne'] at hcrit
        have := g8 j hj hcrit
        rw [hfree] at this
        cases this
  | recheckHit i hi hpc hown hv =>
    have htok : c.token ≠ none := by
      intro htk
      rw [htk] at hv
      simp [tokenValidAt] at hv
    refine ⟨g1, ?_, g3, g4, g5, ?_, ?_, ?_⟩
    · intro j hj hne
      simp only [] at hne ⊢
      rcases eq_or_ne j i with rfl | hne'
      · rw [Function.update_same]
        exact g2 j hj (by rw [hpc]; simp)
      · rw [Function.update_noteq hne'] at hne ⊢
        exact g2 j hj hne
    · intro j _ _
      exact htok
    · intro j hj hr hq
      simp only [] at hr
      rcases eq_or_ne j i with rfl | hne'
      · rw [Function.update_same] at hr
        cases hr
      · rw [Function.update_noteq hne'] at hr
        exact g7 j hj hr hq
    · intro j hj hcrit
      simp only [] at hcrit ⊢
      rcases eq_or_ne j i with rfl | hne'
      · rw [Function.update_same] at hcrit
        rcases hcrit with h | h <;> cases h
      · rw [Function.update_noteq hne'] at hcrit
        have hthis := g8 j hj hcrit
        rw [hown] at hthis
        cases hthis
        exact absurd rfl hne'
  | refreshBegin i hi hpc hown hv =>
    refine ⟨g1, ?_, g3, g4, g5, ?_, ?_, ?_⟩
    · intro j hj hne
      simp only [] at hne ⊢
      rcases eq_or_ne j i with rfl | hne'
      · rw [Function.update_same]
        exact g2 j hj (by rw [hpc]; simp)
      · rw [Function.update_noteq hne'] at hne ⊢
        exact g2 j hj hne
    · intro j hj hd
      simp only [] at hd
      rcases eq_or_ne j i with rfl | hne'
      · rw [Function.update_same] at hd
        cases hd
      · rw [Function.update_noteq hne'] at hd
        exact g6 j hj hd
    · intro j hj hr hq
      simp only [] at hr ⊢
      rcases eq_or_ne j i with rfl | hne'
      · obtain ⟨e, he, hee⟩ := g3 hq
        rw [he] at hv
        simp only [tokenValidAt, decide_eq_false_iff_not, not_lt] at hv
        have ht0 := g2 j hj (by rw [hpc]; simp)
        omega
      · rw [Function.update_noteq hne'] at hr
        exact g7 j hj hr hq
    · intro j hj hcrit
      simp only [] at hcrit ⊢
      rcases eq_or_ne j i with rfl | hne'
      · exact hown
      · rw [Function.update_noteq hne'] at hcrit
        exact g8 j hj hcrit
  | refreshEnd i hi hpc hown =>
    refine ⟨g1, ?_, ?_, ?_, ?_, ?_, ?_, ?_⟩
    · intro j hj hne
      simp only [] at hne ⊢
      rcases eq_or_ne j i with rfl | hne'
      · rw [Function.update_same]
        exact g2 j hj (by rw [hpc]; simp)
      · rw [Function.update_noteq hne'] at hne ⊢
        exact g2 j hj hne
    · intro _
      exact ⟨c.clock + E - 60, rfl, by omega⟩
    · simp
    · intro h2
      simp only [] at h2 ⊢
      exact g7 i hi hpc (by omega)
    · intro j _ _
      simp
    · intro j hj hr hq
      simp only [] at hr ⊢
      rcases eq_or_ne j i with rfl | hne'
      · rw [Function.update_same] at hr
        cases hr
      · rw [Function.update_noteq hne'] at hr
        have hthis := g8 j hj (Or.inr hr)
        rw [hown] at hthis
        cases hthis
        exact absurd rfl hne'
    · intro j hj hcrit
      simp only [] at hcrit ⊢
      rcases eq_or_ne j i with rfl | hne'
      · rw [Function.update_same] at hcrit
        rcases hcrit with h | h <;> cases h
      · rw [Function.update_noteq hne'] at hcrit
        have hthis := g8 j hj hcrit
        rw [hown] at hthis
        cases hthis
        exact absurd rfl hne'

/-- The invariant holds in every reachable configuration. -/
theorem tokInv_reachable {N : Nat} {E : Int} {c0 : Int} {c : TokCfg}
    (h : Relation.ReflTransGen (TokStep N E) (initTokCfg c0) c) :
    TokInv N E c0 c := by
  induction h with
  | refl => exact tokInv_init N E c0
  | tail _ hstep ih => exact tokInv_step hstep ih

/-- C4: starting from a configuration with no cached token, in any
interleaving of `N ≥ 1` concurrent `get_token` callers that runs every
caller to completion before the fresh token could expire
(`clock < c0 + E - 120`), exactly one refresh request is issued: the
lock serializes the refresh, the in-lock re-check makes every waiter
reuse the just-cached token, and at least one caller must have
refreshed for any caller to finish. -/
theorem get_token_single_refresh (N : Nat) (E c0 : Int) (c : TokCfg)
    (hN : 0 < N)
    (hreach : Relation.ReflTransGen (TokStep N E) (initTokCfg c0) c)
    (hdone : ∀ i, i < N → (c.callers i).pc = CallerPC.done)
    (hclock : c.clock < c0 + E - 120) :
    c.reqCount = 1 := by
  obtain ⟨g1, g2, g3, g4, g5, g6, g7, g8⟩ := tokInv_reachable hreach
  have hle : c.reqCount ≤ 1 := by
    by_contra hgt
    have := g5 (by omega)
    omega
  have hne : c.reqCount ≠ 0 := by
    intro h0
    exact g6 0 hN (hdone 0 hN) (g4.2 h0)
  omega

/-- The demo interleaving is a genuine run of the transition system. -/
theorem tokDemo_reach :
    Relation.ReflTransGen (TokStep 2 1800) (initTokCfg 0) tokDemo7 := by
  have s1 : TokStep 2 1800 tokDemo0 tokDemo1 :=
    TokStep.fastMiss tokDemo0 0 (by decide) (by decide) (by decide)
  have s2 : TokStep 2 1800 tokDemo1 tokDemo2 :=
    TokStep.fastMiss tokDemo1 1 (by decide) (by decide) (by decide)
  have s3 : TokStep 2 1800 tokDemo2 tokDemo3 :=
    TokStep.acquire tokDemo2 0 (by decide) (by decide) (by decide)
  have s4 : TokStep 2 1800 tokDemo3 tokDemo4 :=
    TokStep.refreshBegin tokDemo3 0 (by decide) (by decide) (by decide) (by decide)
  have s5 : TokStep 2 1800 tokDemo4 tokDemo5 :=
    TokStep.refreshEnd tokDemo4 0 (by decide) (by decide) (by decide)
  have s6 : TokStep 2 1800 tokDemo5 tokDemo6 :=
    TokStep.acquire tokDemo5 1 (by decide) (by decide) (by decide)
  have s7 : TokStep 2 1800 tokDemo6 tokDemo7 :=
    TokStep.recheckHit tokDemo6 1 (by decide) (by decide) (by decide) (by decide)
  exact .tail (.tail (.tail (.tail (.tail (.tail (.tail .refl s1) s2) s3) s4) s5) s6) s7

/-- C4, witness: the two-caller demo run finishes with both callers
done, well inside the token's lifetime, and exactly one request
issued. -/
theorem get_token_single_refresh_witness :
    (tokDemo7.callers 0).pc = CallerPC.done ∧
    (tokDemo7.callers 1).pc = CallerPC.done ∧
    tokDemo7.clock < 0 + 1800 - 120 ∧
    tokDemo7.reqCount = 1 :=
  ⟨by decide, by decide, by decide,
    get_token_single_refresh 2 1800 0 tokDemo7 (by decide) tokDemo_reach
      (by decide) (by decide)⟩

end VoiceCRM
